import Mathlib

/-!
Shallow embedding of the Zabbia natural-language query engine
(`src/zabbia/backend/nlp_processor.py`) and of the orchestrating endpoint
(`src/backend/api.py` → `process_query`), together with proofs settling the
frozen claims about the specification.

Modelling conventions:
* Python strings are Lean `String`s (lists of unicode scalar chars).
* `str.lower()` is modelled by `pyLower`, which folds ASCII `A`–`Z` and the
  Latin-1 uppercase letters (`À`…`Þ`, excluding `×`) by adding 32, exactly the
  fragment of Python's unicode case folding exercised by the engine's
  vocabulary (all claim inputs are lowercase already).
* `datetime.now()` is modelled by an injected integer `now` of epoch seconds;
  `int(x.timestamp())` truncation is exact here because every `timedelta`
  used by the code is a whole number of seconds.  Successive `now()` calls
  inside one request are modelled as the same instant.
* Python `re` patterns are modelled two ways, both translated construct by
  construct from the pattern strings in the source:
  - the intent-classification patterns (no capture groups needed) become a
    small regular-expression AST `RE` with a Brzozowski-derivative matcher
    `reSearch` (boolean "matches anywhere", the semantics of `re.search`);
  - the four parameter-extraction patterns, whose capture groups the code
    reads, become deterministic scanners that reproduce the regexes'
    leftmost-position, alternation-order and greedy behaviour (each regex's
    adjacent subpatterns have disjoint character sets, so greedy matching is
    deterministic; the only real backtracking — between alternatives and
    optional pieces — is reproduced by ordered `<|>` chains).
* `re` character classes `\d` and `\s` are modelled by their ASCII portions;
  no claim exercises non-ASCII digits or whitespace.
-/

/-! ### Character helpers -/

/-- ASCII/Latin-1 lower-casing of one character: the fragment of Python's
`str.lower()` used by the engine (`A`–`Z` and Latin-1 uppercase letters map by
adding 32). -/
def lowerChar (c : Char) : Char :=
  let n := c.toNat
  if (65 ≤ n ∧ n ≤ 90) ∨ (192 ≤ n ∧ n ≤ 222 ∧ n ≠ 215) then Char.ofNat (n + 32) else c

/-- Model of Python `str.lower()`. -/
def pyLower (s : String) : String := ⟨s.data.map lowerChar⟩

/-- ASCII portion of Python's regex class `\s`
(space, tab, newline, vertical tab, form feed, carriage return). -/
def isPySpace (c : Char) : Bool :=
  c.toNat = 32 || c.toNat = 9 || c.toNat = 10 || c.toNat = 11 || c.toNat = 12 || c.toNat = 13

/-- The class `[:\s]` used by the extraction regexes. -/
def isSepChar (c : Char) : Bool := c.toNat = 58 || isPySpace c

/-- The class `[a-zA-Z0-9\-_\.]` of the host-extraction regex, by code point:
`a`–`z` (97–122), `A`–`Z` (65–90), `0`–`9` (48–57), `-` (45), `_` (95), `.` (46). -/
def isHostTokenChar (c : Char) : Bool :=
  let n := c.toNat
  (97 ≤ n && n ≤ 122) || (65 ≤ n && n ≤ 90) || (48 ≤ n && n ≤ 57)
    || n == 45 || n == 95 || n == 46

/-- Decimal value accumulation: `parseVal a cs` is Python `int` applied to the
digit string `cs`, starting from accumulator `a`. -/
def parseVal (a : Nat) : List Char → Nat
  | [] => a
  | c :: cs => parseVal (a * 10 + (c.toNat - 48)) cs

/-- Boolean "is `p` a prefix of `l`". -/
def isPrefixB : List Char → List Char → Bool
  | [], _ => true
  | _ :: _, [] => false
  | a :: as, b :: bs => a == b && isPrefixB as bs

/-- Boolean "does `l` contain `pat` as a contiguous substring". -/
def containsSub (pat : List Char) : List Char → Bool
  | [] => isPrefixB pat []
  | c :: rest => isPrefixB pat (c :: rest) || containsSub pat rest

/-- If `p` is a prefix of `l`, return the remainder of `l`. -/
def stripPre (p l : List Char) : Option (List Char) :=
  if isPrefixB p l then some (l.drop p.length) else none

/-! ### Regular-expression AST and Brzozowski-derivative matcher

Used for the intent-classification patterns, which the code only tests with
`re.search` (boolean). -/

inductive RE where
  | emp : RE
  | eps : RE
  | any : RE
  | lit : Char → RE
  | cls : List Char → RE
  | digit : RE
  | seq : RE → RE → RE
  | alt : RE → RE → RE
  | star : RE → RE

namespace RE

def nullable : RE → Bool
  | emp => false
  | eps => true
  | any => false
  | lit _ => false
  | cls _ => false
  | digit => false
  | seq a b => a.nullable && b.nullable
  | alt a b => a.nullable || b.nullable
  | star _ => true

/-- Smart sequence constructor (keeps derivatives small). -/
def mkSeq : RE → RE → RE
  | emp, _ => emp
  | _, emp => emp
  | eps, b => b
  | a, eps => a
  | a, b => seq a b

/-- Smart alternation constructor (keeps derivatives small). -/
def mkAlt : RE → RE → RE
  | emp, b => b
  | a, emp => a
  | a, b => alt a b

/-- Brzozowski derivative with respect to character `c`.  `any` is Python's
`.`, which matches every character except a newline. -/
def deriv (c : Char) : RE → RE
  | emp => emp
  | eps => emp
  | any => if c = '\n' then emp else eps
  | lit d => if c = d then eps else emp
  | cls cs => if cs.contains c then eps else emp
  | digit => if c.isDigit then eps else emp
  | seq a b =>
    if a.nullable then mkAlt (mkSeq (a.deriv c) b) (b.deriv c) else mkSeq (a.deriv c) b
  | alt a b => mkAlt (a.deriv c) (b.deriv c)
  | star a => mkSeq (a.deriv c) (star a)

def isEmp : RE → Bool
  | emp => true
  | _ => false

end RE

/-- Does `r` match some (possibly empty) prefix of `l`? -/
def matchesPre (r : RE) : List Char → Bool
  | [] => r.nullable
  | c :: cs =>
    r.nullable || (let d := r.deriv c; if d.isEmp then false else matchesPre d cs)

/-- Model of `re.search(r, text) is not None`: does `r` match a substring of
`l` starting at some position? -/
def reSearch (r : RE) : List Char → Bool
  | [] => r.nullable
  | c :: rest => matchesPre r (c :: rest) || reSearch r rest

/-! ### Combinators for transcribing the Python patterns -/

def rlit (s : String) : RE := s.data.foldr (fun c r => RE.seq (RE.lit c) r) RE.eps

def rcat (l : List RE) : RE := l.foldr RE.seq RE.eps

def ralt : List RE → RE
  | [] => RE.emp
  | [r] => r
  | r :: rs => RE.alt r (ralt rs)

def ropt (r : RE) : RE := RE.alt r RE.eps

def rplus (r : RE) : RE := RE.seq r (RE.star r)

/-- Pattern piece `.*`. -/
def dotStar : RE := RE.star RE.any

/-- Characters of the class `[%\s]`. -/
def pctWs : List Char := ['%', ' ', '\t', '\n', '\x0b', '\x0c', '\r']

/-! ### The intent vocabulary (`QueryIntent`) -/

def QueryIntent.high_cpu : String := "high_cpu"
def QueryIntent.memory_usage : String := "memory_usage"
def QueryIntent.disk_usage : String := "disk_usage"
def QueryIntent.host_status : String := "host_status"
def QueryIntent.host_uptime : String := "host_uptime"
def QueryIntent.unavailable_services : String := "unavailable_services"
def QueryIntent.alert_summary : String := "alert_summary"
def QueryIntent.graph_request : String := "graph_request"
def QueryIntent.host_maintenance : String := "host_maintenance"
def QueryIntent.general_query : String := "general_query"

/-! ### The intent patterns (transcribed one-for-one from
`NLPProcessor.__init__`) -/

/-- Pattern piece `(?:hosts?|servidore?s?)`. -/
def kwHosts : RE :=
  ralt [rcat [rlit "host", ropt (rlit "s")],
        rcat [rlit "servidor", ropt (rlit "e"), ropt (rlit "s")]]

/-- Pattern piece `(?:alta|elevad[ao]|acima|maior)`. -/
def altaSet : RE :=
  ralt [rlit "alta", rcat [rlit "elevad", RE.cls ['a', 'o']], rlit "acima", rlit "maior"]

/-- Pattern piece `est[áa][ão]o`. -/
def estPart : RE := rcat [rlit "est", RE.cls ['á', 'a'], RE.cls ['ã', 'o'], rlit "o"]

/-- Pattern piece `mem[óo]ria`. -/
def memWord : RE := rcat [rlit "mem", RE.cls ['ó', 'o'], rlit "ria"]

/-- Pattern piece `gr[áa]fico`. -/
def grafWord : RE := rcat [rlit "gr", RE.cls ['á', 'a'], rlit "fico"]

/-- Pattern piece `manuten[çc][ãa]o`. -/
def manutWord : RE := rcat [rlit "manuten", RE.cls ['ç', 'c'], RE.cls ['ã', 'a'], rlit "o"]

/-- Pattern piece `servi[çc]os?`. -/
def svcWord : RE := rcat [rlit "servi", RE.cls ['ç', 'c'], rlit "o", ropt (rlit "s")]

/-- Pattern piece `aplica[çc][õo]es?`. -/
def aplWord : RE :=
  rcat [rlit "aplica", RE.cls ['ç', 'c'], RE.cls ['õ', 'o'], rlit "e", ropt (rlit "s")]

/-- Pattern piece `indispon[íi]ve(?:l|is)`. -/
def indisWord : RE :=
  rcat [rlit "indispon", RE.cls ['í', 'i'], rlit "ve", ralt [rlit "l", rlit "is"]]

def hcPats : List RE :=
  [rcat [kwHosts, dotStar, ralt [rlit "cpu", rlit "processador"], dotStar, altaSet],
   rcat [rlit "cpu", dotStar, ralt [rlit "acima", rlit "maior"], dotStar,
         rplus RE.digit, RE.cls pctWs],
   rcat [rlit "quai", ropt (rlit "s"), rlit " ", rlit "host", ropt (rlit "s"), rlit " ",
         ralt [estPart, rlit "com"], rlit " cpu ", ralt [rlit "alta", rlit "acima"]]]

def memPats : List RE :=
  [rcat [kwHosts, dotStar, ralt [memWord, rlit "ram"], dotStar, altaSet],
   rcat [ralt [memWord, rlit "ram"], dotStar, ralt [rlit "acima", rlit "maior"], dotStar,
         rplus RE.digit, RE.cls pctWs],
   rcat [rlit "uso de mem", RE.cls ['ó', 'o'], rlit "ria"]]

def diskPats : List RE :=
  [rcat [kwHosts, dotStar,
         ralt [rlit "disco", rlit "armazenamento", rlit "fs", rlit "filesystem"],
         dotStar, altaSet],
   rcat [ralt [rlit "disco", rlit "armazenamento"], dotStar,
         ralt [rlit "acima", rlit "maior"], dotStar, rplus RE.digit, RE.cls pctWs],
   rlit "uso de disco"]

def statusPats : List RE :=
  [rcat [rlit "status", dotStar, kwHosts],
   rcat [kwHosts, dotStar, ralt [rlit "status", rlit "estado"]],
   rcat [rlit "quai", ropt (rlit "s"), rlit " ", rlit "host", ropt (rlit "s"), rlit " ",
         estPart, rlit " ", ralt [rlit "online", rlit "offline", rlit "down", rlit "up"]]]

def uptimePats : List RE :=
  [rcat [rlit "uptime", dotStar, kwHosts],
   rcat [kwHosts, dotStar, rlit "uptime"],
   rcat [ralt [rlit "quanto tempo", rlit "desde quando"], dotStar, kwHosts, dotStar,
         ralt [rlit "online", rcat [rlit "ativ", RE.cls ['o', 'a'], ropt (rlit "s")]]]]

def unavailPats : List RE :=
  [rcat [ralt [svcWord, aplWord], dotStar,
         ralt [indisWord, rlit "offline", rlit "down", rlit "fora do ar"]],
   rcat [rlit "quai", ropt (rlit "s"), dotStar, ralt [svcWord, aplWord], dotStar, estPart,
         dotStar, ralt [indisWord, rlit "offline", rlit "down"]]]

def alertPats : List RE :=
  [rcat [ralt [rlit "resumo", rcat [rlit "sum", RE.cls ['á', 'a'], rlit "rio"]], dotStar,
         ralt [rlit "alerta", rlit "problema"], ropt (rlit "s")],
   rcat [ralt [rlit "alerta", rlit "problema"], ropt (rlit "s"), dotStar,
         ralt [rlit "resumo", rcat [rlit "sum", RE.cls ['á', 'a'], rlit "rio"]]],
   rcat [ralt [rlit "alertas", rlit "problemas"], dotStar,
         ralt [rcat [rlit "cr", RE.cls ['í', 'i'], rlit "tico"], rlit "grave"],
         ropt (rlit "s")]]

def graphPats : List RE :=
  [rcat [ralt [grafWord, rlit "chart"], dotStar,
         ralt [rlit "cpu", memWord, rlit "ram", rlit "disco", rlit "rede", rlit "network"]],
   rcat [ralt [rcat [rlit "gera", ropt (rlit "r")], rcat [rlit "cria", ropt (rlit "r")],
               rcat [rlit "mostra", ropt (rlit "r")]], dotStar, ralt [grafWord, rlit "chart"]],
   rcat [rlit "visualiza", ropt (rlit "r"), dotStar, ralt [grafWord, rlit "chart"]]]

def maintPats : List RE :=
  [rcat [ralt [rcat [rlit "coloca", ropt (rlit "r")], rcat [rlit "coloca", ropt (rlit "r")],
               rcat [rlit "po", ropt (rlit "r")], rcat [rlit "bota", ropt (rlit "r")]],
         dotStar, ralt [rcat [rlit "em ", manutWord], rlit "manutenir"]],
   rcat [manutWord, dotStar, kwHosts],
   rcat [kwHosts, dotStar, manutWord]]

/-- The ordered intent-pattern table of `NLPProcessor.__init__` (Python dicts
preserve insertion order, so its iteration order is this declaration order). -/
def intentTable : List (String × List RE) :=
  [(QueryIntent.high_cpu, hcPats),
   (QueryIntent.memory_usage, memPats),
   (QueryIntent.disk_usage, diskPats),
   (QueryIntent.host_status, statusPats),
   (QueryIntent.host_uptime, uptimePats),
   (QueryIntent.unavailable_services, unavailPats),
   (QueryIntent.alert_summary, alertPats),
   (QueryIntent.graph_request, graphPats),
   (QueryIntent.host_maintenance, maintPats)]

/-- Model of `NLPProcessor.detect_intent`: lower-case the query, then return the intent
of the first pattern (table order, then pattern order) that matches anywhere;
`general_query` if none does. -/
def detect_intent (query : String) : String :=
  match intentTable.find? (fun e => e.2.any (fun r => reSearch r (pyLower query).data)) with
  | some e => e.1
  | none => QueryIntent.general_query

/-! ### Parameter extraction

Each Python extraction regex is transcribed as a deterministic scanner:
`re.search` tries start positions left to right; at a given position the
alternatives of each group are tried in the regex's order (ordered `<|>`
below); greedy `+`/`*` pieces are maximal runs (deterministic because every
adjacent pair of subpatterns draws from disjoint character sets). -/

/-- Tail of the host regex after the keyword: `[:\s]+([a-zA-Z0-9\-_\.]+)`;
returns the captured token. -/
def hostAfterKw : List Char → Option (List Char)
  | [] => none
  | c :: rest =>
    if isSepChar c then
      match (rest.dropWhile isSepChar).takeWhile isHostTokenChar with
      | [] => none
      | t :: ts => some (t :: ts)
    else none

/-- One attempt of the host regex
`(?:host|servidor[a]?|maquina)[:\s]+([a-zA-Z0-9\-_\.]+)` at the current
position (keyword alternatives in regex order, `servidor[a]?` greedy). -/
def hostTryAt (l : List Char) : Option (List Char) :=
  ((stripPre "host".data l).bind hostAfterKw)
    <|> ((stripPre "servidora".data l).bind hostAfterKw)
    <|> ((stripPre "servidor".data l).bind hostAfterKw)
    <|> ((stripPre "maquina".data l).bind hostAfterKw)

/-- Leftmost search for the host regex. -/
def hostSearch : List Char → Option (List Char)
  | [] => none
  | c :: rest =>
    match hostTryAt (c :: rest) with
    | some tok => some tok
    | none => hostSearch rest

/-- Model of `NLPProcessor.extract_host`. -/
def extract_host (query : String) : Option String :=
  (hostSearch (pyLower query).data).map (fun l => ⟨l⟩)

/-- Tail of the threshold regex after the optional `(?:de|que)?`:
`[:\s]*(\d+)[%\s]`; the digit run is maximal and must be followed by `%` or
whitespace. -/
def thrTail (r : List Char) : Option Nat :=
  let r2 := r.dropWhile isSepChar
  let ds := r2.takeWhile Char.isDigit
  if ds.isEmpty then none
  else
    match r2.drop ds.length with
    | c :: _ => if c == '%' || isPySpace c then some (parseVal 0 ds) else none
    | [] => none

/-- After a threshold keyword: `[:\s]+(?:de|que)?[:\s]*(\d+)[%\s]` (the
optional group backtracks through `de`, `que`, then the empty alternative). -/
def thrAfterKw : List Char → Option Nat
  | [] => none
  | c :: rest =>
    if isSepChar c then
      let r2 := rest.dropWhile isSepChar
      ((stripPre "de".data r2).bind thrTail)
        <|> ((stripPre "que".data r2).bind thrTail)
        <|> thrTail r2
    else none

/-- One attempt of `(?:acima|maior|superior|mais)[:\s]+(?:de|que)?[:\s]*(\d+)[%\s]`
at the current position. -/
def thrTryAt (l : List Char) : Option Nat :=
  ((stripPre "acima".data l).bind thrAfterKw)
    <|> ((stripPre "maior".data l).bind thrAfterKw)
    <|> ((stripPre "superior".data l).bind thrAfterKw)
    <|> ((stripPre "mais".data l).bind thrAfterKw)

def thrSearch : List Char → Option Nat
  | [] => none
  | c :: rest =>
    match thrTryAt (c :: rest) with
    | some n => some n
    | none => thrSearch rest

/-- Model of `NLPProcessor.extract_threshold`. -/
def extract_threshold (query : String) (default : Nat := 80) : Nat :=
  (thrSearch (pyLower query).data).getD default

/-- The unit group `(minutos?|horas?|dias?|m|h|d)` as a prefix match,
alternatives in the regex's backtracking order; returns the matched group. -/
def matchUnit (r : List Char) : Option (List Char) :=
  if isPrefixB "minutos".data r then some "minutos".data
  else if isPrefixB "minuto".data r then some "minuto".data
  else if isPrefixB "horas".data r then some "horas".data
  else if isPrefixB "hora".data r then some "hora".data
  else if isPrefixB "dias".data r then some "dias".data
  else if isPrefixB "dia".data r then some "dia".data
  else if isPrefixB "m".data r then some "m".data
  else if isPrefixB "h".data r then some "h".data
  else if isPrefixB "d".data r then some "d".data
  else none

/-- Shared tail `[:\s]+(\d+)[:\s]*(minutos?|horas?|dias?|m|h|d)` of the period
and duration regexes; returns (captured number, captured unit group). -/
def numUnitTail : List Char → Option (Nat × List Char)
  | [] => none
  | c :: rest =>
    if isSepChar c then
      let r2 := rest.dropWhile isSepChar
      let ds := r2.takeWhile Char.isDigit
      if ds.isEmpty then none
      else
        let r3 := (r2.drop ds.length).dropWhile isSepChar
        (matchUnit r3).map (fun u => (parseVal 0 ds, u))
    else none

/-- One attempt of
`(?:últim(?:as?|os?))[:\s]+(\d+)[:\s]*(minutos?|horas?|dias?|m|h|d)`; the
inner group's backtracking order is `as`, `a`, `os`, `o`. -/
def periodTryAt (l : List Char) : Option (Nat × List Char) :=
  ((stripPre "últimas".data l).bind numUnitTail)
    <|> ((stripPre "última".data l).bind numUnitTail)
    <|> ((stripPre "últimos".data l).bind numUnitTail)
    <|> ((stripPre "último".data l).bind numUnitTail)

def periodSearch : List Char → Option (Nat × List Char)
  | [] => none
  | c :: rest =>
    match periodTryAt (c :: rest) with
    | some v => some v
    | none => periodSearch rest

/-- One attempt of
`(?:por|durante)[:\s]+(\d+)[:\s]*(minutos?|horas?|dias?|m|h|d)`. -/
def durTryAt (l : List Char) : Option (Nat × List Char) :=
  ((stripPre "por".data l).bind numUnitTail)
    <|> ((stripPre "durante".data l).bind numUnitTail)

def durSearch : List Char → Option (Nat × List Char)
  | [] => none
  | c :: rest =>
    match durTryAt (c :: rest) with
    | some v => some v
    | none => durSearch rest

/-! ### Time-window resolution (`TimeRange`) -/

/-- Structure `TimeRange`: a resolved time window.  The Python fields are optional but
`from_period` (the only constructor the engine uses) always fills all three. -/
structure TimeRange where
  from_timestamp : Int
  to_timestamp : Int
  time_period : String
deriving DecidableEq, Repr

/-- Character-list core of `parsePeriod`: a maximal leading ASCII digit run
followed by `d`, `h` or `m`. -/
def parsePeriodL (l : List Char) : Option (Nat × Char) :=
  if (l.takeWhile Char.isDigit).isEmpty then none
  else
    match l.drop (l.takeWhile Char.isDigit).length with
    | c :: _ =>
      if c == 'd' || c == 'h' || c == 'm' then
        some (parseVal 0 (l.takeWhile Char.isDigit), c)
      else none
    | [] => none

/-- The prefix parse `re.match(r"(\d+)([dhm])", period.lower())`: a maximal
leading ASCII digit run followed by `d`, `h` or `m` (the regex is anchored at
the start only, so trailing characters are ignored). -/
def parsePeriod (period : String) : Option (Nat × Char) :=
  parsePeriodL (pyLower period).data

/-- Model of `TimeRange.from_period`: `now` is the injected value of
`int(datetime.now().timestamp())`.  All deltas are whole seconds, so the
float-truncation of the Python code is exact. -/
def TimeRange.from_period (now : Int) (period : String := "24h") : TimeRange :=
  match parsePeriod period with
  | none => ⟨now - 24 * 3600, now, "24h"⟩
  | some (v, u) =>
    let p : Int × String :=
      if u = 'm' then ((v : Int) * 60, Nat.repr v ++ "m")
      else if u = 'h' then ((v : Int) * 3600, Nat.repr v ++ "h")
      else if u = 'd' then ((v : Int) * 86400, Nat.repr v ++ "d")
      else (24 * 3600, "24h")
    ⟨now - p.1, now, p.2⟩

/-- Model of `NLPProcessor.extract_time_range`: search the period regex, dispatch on
the first letter of the captured unit group, else default to `"24h"`. -/
def extract_time_range (now : Int) (query : String) : TimeRange :=
  match periodSearch (pyLower query).data with
  | some (v, unit) =>
    match unit.head? with
    | some u =>
      if u = 'm' then TimeRange.from_period now (Nat.repr v ++ "m")
      else if u = 'h' then TimeRange.from_period now (Nat.repr v ++ "h")
      else if u = 'd' then TimeRange.from_period now (Nat.repr v ++ "d")
      else TimeRange.from_period now "24h"
    | none => TimeRange.from_period now "24h"
  | none => TimeRange.from_period now "24h"

/-- Model of `NLPProcessor.extract_duration`: minutes; hours ×60, days ×60×24. -/
def extract_duration (query : String) (default : Nat := 60) : Nat :=
  match durSearch (pyLower query).data with
  | some (v, unit) =>
    match unit.head? with
    | some u =>
      if u = 'm' then v
      else if u = 'h' then v * 60
      else if u = 'd' then v * 60 * 24
      else default
    | none => default
  | none => default

/-! ### SQL generation (`NLPProcessor.generate_sql`) -/

/-- Values stored in the `context` dict returned by `generate_sql`. -/
inductive CtxVal where
  | s : String → CtxVal
  | i : Int → CtxVal
  | tr : TimeRange → CtxVal
deriving DecidableEq, Repr

/-- The `context` dict, as an insertion-ordered association list (all keys the
code writes are distinct). -/
abbrev Ctx := List (String × CtxVal)

def lookupCtx (k : String) : Ctx → Option CtxVal
  | [] => none
  | (k', v) :: rest => if k' = k then some v else lookupCtx k rest

/-- Leading part of the HIGH_CPU SQL (up to the optional host clause). -/
def highCpuSqlA : String :=
  "\n            -- Hosts com CPU acima do threshold\n            SELECT h.hostid, h.name,\n                   100 - AVG(hu.value) AS cpu_usage\n            FROM hosts h\n            JOIN items i ON h.hostid = i.hostid\n            JOIN history_uint hu ON i.itemid = hu.itemid\n            WHERE i.key_ = \x27system.cpu.util[,idle]\x27\n              AND hu.clock > :from_time\n              AND hu.clock <= :to_time\n            "

/-- Trailing part of the HIGH_CPU SQL. -/
def highCpuSqlB : String :=
  "\n            GROUP BY h.hostid, h.name\n            HAVING 100 - AVG(hu.value) > :threshold\n            ORDER BY cpu_usage DESC;\n            "

def memSqlA : String :=
  "\n            -- Hosts com uso de memória acima do threshold\n            SELECT h.hostid, h.name,\n                   (1 - AVG(hm.value) / AVG(ht.value)) * 100 AS memory_usage\n            FROM hosts h\n            JOIN items im ON h.hostid = im.hostid\n            JOIN items it ON h.hostid = it.hostid\n            JOIN history hm ON im.itemid = hm.itemid\n            JOIN history ht ON it.itemid = ht.itemid\n            WHERE im.key_ = \x27vm.memory.size[available]\x27\n              AND it.key_ = \x27vm.memory.size[total]\x27\n              AND hm.clock > :from_time\n              AND hm.clock <= :to_time\n              AND ht.clock > :from_time\n              AND ht.clock <= :to_time\n            "

def memSqlB : String :=
  "\n            GROUP BY h.hostid, h.name\n            HAVING (1 - AVG(hm.value) / AVG(ht.value)) * 100 > :threshold\n            ORDER BY memory_usage DESC;\n            "

def statusSqlA : String :=
  "\n            -- Status dos hosts\n            SELECT h.hostid, h.name,\n                   CASE h.status\n                       WHEN 0 THEN \x27Enabled\x27\n                       WHEN 1 THEN \x27Disabled\x27\n                       ELSE \x27Unknown\x27\n                   END AS status,\n                   CASE h.available\n                       WHEN 0 THEN \x27Unknown\x27\n                       WHEN 1 THEN \x27Available\x27\n                       WHEN 2 THEN \x27Unavailable\x27\n                       ELSE \x27Unknown\x27\n                   END AS availability\n            FROM hosts h\n            "

def uptimeSqlA : String :=
  "\n            -- Uptime dos hosts\n            SELECT h.hostid, h.name,\n                   hu.value AS uptime_seconds,\n                   hu.value / 86400 AS uptime_days\n            FROM hosts h\n            JOIN items i ON h.hostid = i.hostid\n            JOIN history_uint hu ON i.itemid = hu.itemid\n            WHERE i.key_ = \x27system.uptime\x27\n              AND hu.clock > (UNIX_TIMESTAMP() - 300)\n            "

def unavailSqlA : String :=
  "\n            -- Serviços indisponíveis\n            SELECT h.hostid, h.name AS host,\n                   i.name AS service,\n                   FROM_UNIXTIME(t.lastchange) AS since,\n                   t.description AS problem\n            FROM triggers t\n            JOIN functions f ON t.triggerid = f.triggerid\n            JOIN items i ON f.itemid = i.itemid\n            JOIN hosts h ON i.hostid = h.hostid\n            WHERE t.value = 1\n              AND t.status = 0\n              AND t.state = 0\n            "

def alertSqlA : String :=
  "\n            -- Resumo de alertas\n            SELECT p.eventid,\n                   h.name AS host,\n                   p.name AS problem,\n                   p.severity,\n                   FROM_UNIXTIME(p.clock) AS timestamp,\n                   p.r_eventid IS NOT NULL AS resolved\n            FROM problem p\n            JOIN events e ON p.eventid = e.eventid\n            JOIN triggers t ON e.objectid = t.triggerid\n            JOIN functions f ON t.triggerid = f.triggerid\n            JOIN items i ON f.itemid = i.itemid\n            JOIN hosts h ON i.hostid = h.hostid\n            WHERE p.clock > :from_time\n              AND p.clock <= :to_time\n            "

def genericSqlA : String :=
  "\n            -- Consulta genérica\n            SELECT h.hostid, h.name, h.status, h.available\n            FROM hosts h\n            WHERE 1=1\n            "

/-- Branch body of `generate_sql`, abstracted over the three values the
Python code computes before its `if`/`elif` chain (`intent`, `host`,
`time_range`). -/
def generate_sql_core (intent : String) (host : Option String)
    (time_range : TimeRange) (query : String) : String × Ctx :=
  let baseCtx : Ctx :=
    [("intent", CtxVal.s intent), ("query", CtxVal.s query)]
      ++ (match host with | some h => [("host", CtxVal.s h)] | none => [])
      ++ [("time_range", CtxVal.tr time_range)]
  let hp : Ctx :=
    match host with
    | some h => [("host_pattern", CtxVal.s ("%" ++ h ++ "%"))]
    | none => []
  let andClause : String :=
    match host with
    | some _ => " AND h.name LIKE :host_pattern"
    | none => ""
  let whereClause : String :=
    match host with
    | some _ => " WHERE h.name LIKE :host_pattern"
    | none => ""
  if intent = QueryIntent.high_cpu then
    let threshold := extract_threshold query 80
    (highCpuSqlA ++ andClause ++ highCpuSqlB,
     baseCtx ++ [("threshold", CtxVal.i threshold)] ++ hp)
  else if intent = QueryIntent.memory_usage then
    let threshold := extract_threshold query 80
    (memSqlA ++ andClause ++ memSqlB,
     baseCtx ++ [("threshold", CtxVal.i threshold)] ++ hp)
  else if intent = QueryIntent.host_status then
    (statusSqlA ++ whereClause ++ " ORDER BY h.name;", baseCtx ++ hp)
  else if intent = QueryIntent.host_uptime then
    (uptimeSqlA ++ andClause ++ " ORDER BY h.name;", baseCtx ++ hp)
  else if intent = QueryIntent.unavailable_services then
    (unavailSqlA ++ andClause ++ " ORDER BY t.lastchange DESC;", baseCtx ++ hp)
  else if intent = QueryIntent.alert_summary then
    (alertSqlA ++ andClause ++ " ORDER BY p.clock DESC;", baseCtx ++ hp)
  else
    (genericSqlA ++ andClause ++ " ORDER BY h.name;", baseCtx ++ hp)

/-- Model of `NLPProcessor.generate_sql`, returning `(sql, context)`.  Context keys
appear in the Python dict's insertion order: `intent`, `query`, `host`
(if extracted), `time_range`, `threshold` (HIGH_CPU / MEMORY_USAGE only),
`host_pattern` (if a host was extracted). -/
def generate_sql (now : Int) (query : String) : String × Ctx :=
  generate_sql_core (detect_intent query) (extract_host query)
    (extract_time_range now query) query

/-- The statement skeleton each intent produces when no host is extracted
(base template with no host clause). -/
def baseSqlText (intent : String) : String :=
  if intent = QueryIntent.high_cpu then highCpuSqlA ++ highCpuSqlB
  else if intent = QueryIntent.memory_usage then memSqlA ++ memSqlB
  else if intent = QueryIntent.host_status then statusSqlA ++ " ORDER BY h.name;"
  else if intent = QueryIntent.host_uptime then uptimeSqlA ++ " ORDER BY h.name;"
  else if intent = QueryIntent.unavailable_services then
    unavailSqlA ++ " ORDER BY t.lastchange DESC;"
  else if intent = QueryIntent.alert_summary then alertSqlA ++ " ORDER BY p.clock DESC;"
  else genericSqlA ++ " ORDER BY h.name;"

/-- The host-name filter clause of the spec, without the leading
`AND`/`WHERE` keyword. -/
def hostClause : String := "h.name LIKE :host_pattern"

/-! ### Python values for API params, chart specs and simulated data -/

/-- A JSON-like value type covering everything the modelled code stores in
Python dicts.  Float literals from the source's simulated data are modelled
by the exact decimal rationals they are written as (nothing computes with
them). -/
inductive PyVal where
  | str : String → PyVal
  | int : Int → PyVal
  | flt : Rat → PyVal
  | bool : Bool → PyVal
  | list : List PyVal → PyVal
  | dict : List (String × PyVal) → PyVal

/-- Association-list lookup in a `PyVal.dict` (keys are distinct wherever the
code reads one). -/
def dictGet (d : PyVal) (k : String) : Option PyVal :=
  match d with
  | PyVal.dict l => lookupP l k
  | _ => none
where
  lookupP : List (String × PyVal) → String → Option PyVal
    | [], _ => none
    | (k', v) :: rest, k => if k' = k then some v else lookupP rest k

/-- Python `d[k] = v`: replace the value of an existing key in place, else
append the new key. -/
def setAssoc : List (String × PyVal) → String → PyVal → List (String × PyVal)
  | [], k, v => [(k, v)]
  | (k', v') :: rest, k, v =>
    if k' = k then (k, v) :: rest else (k', v') :: setAssoc rest k v

def dictSet (d : PyVal) (k : String) (v : PyVal) : PyVal :=
  match d with
  | PyVal.dict l => PyVal.dict (setAssoc l k v)
  | x => x

-- An integer-summing probe over `PyVal`s, used to separate concrete values
-- without a decidable equality on the nested type.
mutual
def pySum : PyVal → Int
  | PyVal.str _ => 0
  | PyVal.int n => n
  | PyVal.flt _ => 0
  | PyVal.bool _ => 0
  | PyVal.list l => pyListSum l
  | PyVal.dict l => pyPairsSum l
def pyListSum : List PyVal → Int
  | [] => 0
  | x :: xs => pySum x + pyListSum xs
def pyPairsSum : List (String × PyVal) → Int
  | [] => 0
  | (_, v) :: xs => pySum v + pyPairsSum xs
end

/-! ### Timestamp rendering (for the decorative strings the code formats) -/

def pad2 (n : Int) : String :=
  if n < 10 then "0" ++ toString n else toString n

/-- Civil date from days since the Unix epoch (standard
days-from-civil inverse; timestamps in scope are non-negative). -/
def civilFromDays (z0 : Int) : Int × Int × Int :=
  let z := z0 + 719468
  let era := (if 0 ≤ z then z else z - 146096) / 146097
  let doe := z - era * 146097
  let yoe := (doe - doe / 1460 + doe / 36524 - doe / 146096) / 365
  let y := yoe + era * 400
  let doy := doe - (365 * yoe + yoe / 4 - yoe / 100)
  let mp := (5 * doy + 2) / 153
  let d := doy - (153 * mp + 2) / 5 + 1
  let m := mp + (if mp < 10 then 3 else -9)
  (y + (if m ≤ 2 then 1 else 0), m, d)

/-- Rendering `strftime("%Y-%m-%d %H:%M:%S")` of an epoch timestamp (in UTC;
the formatted string is purely decorative for every claim). -/
def fmtDateTime (t : Int) : String :=
  let days := t / 86400
  let secs := t % 86400
  let ymd := civilFromDays days
  toString ymd.1 ++ "-" ++ pad2 ymd.2.1 ++ "-" ++ pad2 ymd.2.2 ++ " "
    ++ pad2 (secs / 3600) ++ ":" ++ pad2 (secs % 3600 / 60) ++ ":" ++ pad2 (secs % 60)

/-- Rendering `strftime("%H:%M")` of an epoch timestamp (UTC). -/
def hhmm (t : Int) : String :=
  pad2 (t % 86400 / 3600) ++ ":" ++ pad2 (t % 3600 / 60)

/-! ### API-call generation (`NLPProcessor.generate_api_call`) -/

/-- Branch body of `generate_api_call`, abstracted over the precomputed
`intent` and `host`; the `datetime.now()` calls inside the maintenance
branch are the injected `now`. -/
def generate_api_call_core (now : Int) (intent : String) (host : Option String)
    (query : String) : Option String × PyVal :=
  if intent = QueryIntent.host_maintenance then
    let duration := extract_duration query 60
    (some "maintenance.create",
     PyVal.dict
       [("name", PyVal.str "Manutenção automática via Zabbia"),
        ("active_since", PyVal.int now),
        ("active_till", PyVal.int (now + (duration : Int) * 60)),
        ("hostids", PyVal.list []),
        ("timeperiods",
         PyVal.list [PyVal.dict [("timeperiod_type", PyVal.int 0),
                                 ("period", PyVal.int ((duration : Int) * 60))]]),
        ("description",
         PyVal.str ("Manutenção criada via Zabbia em " ++ fmtDateTime now)),
        ("maintenance_type", PyVal.int 0)])
  else if intent = QueryIntent.high_cpu then
    let _threshold := extract_threshold query 80
    (some "item.get",
     PyVal.dict
       ([("output", PyVal.list [PyVal.str "itemid", PyVal.str "name",
                                PyVal.str "lastvalue", PyVal.str "units"]),
         ("selectHosts", PyVal.list [PyVal.str "hostid", PyVal.str "name"]),
         ("search", PyVal.dict [("key_", PyVal.str "system.cpu.util")]),
         ("monitored", PyVal.bool true)]
        ++ (match host with | some h => [("host", PyVal.str h)] | none => [])))
  else if intent = QueryIntent.host_status then
    (some "host.get",
     PyVal.dict
       ([("output", PyVal.list [PyVal.str "hostid", PyVal.str "name",
                                PyVal.str "status", PyVal.str "available"]),
         ("selectInterfaces", PyVal.list [PyVal.str "ip", PyVal.str "type",
                                          PyVal.str "useip", PyVal.str "main"]),
         ("selectGroups", PyVal.str "extend")]
        ++ (match host with
            | some h => [("search", PyVal.dict [("name", PyVal.str h)]),
                         ("searchWildcardsEnabled", PyVal.bool true)]
            | none => [])))
  else if intent = QueryIntent.unavailable_services then
    (some "problem.get",
     PyVal.dict
       ([("output", PyVal.str "extend"),
         ("selectHosts", PyVal.list [PyVal.str "hostid", PyVal.str "name"]),
         ("recent", PyVal.bool true),
         ("sortfield", PyVal.list [PyVal.str "eventid"]),
         ("sortorder", PyVal.str "DESC")]
        ++ (match host with | some h => [("host", PyVal.str h)] | none => [])))
  else
    (none, PyVal.dict [])

/-- Model of `NLPProcessor.generate_api_call`, returning `(method, params)`; `method`
is `none` when no branch applies (Python `None`).  The unused
`extract_time_range` call of the source is pure and does not influence the
result. -/
def generate_api_call (now : Int) (query : String) : Option String × PyVal :=
  generate_api_call_core now (detect_intent query) (extract_host query) query

/-! ### Chart generation (`NLPProcessor.generate_graph_data`) -/

/-- Model of `NLPProcessor.generate_graph_data`: the chart skeleton; `labels` and the
dataset `data` are left empty here and (in the orchestrator) filled with
simulated values. -/
def generate_graph_data (query : String) : PyVal :=
  let lq := (pyLower query).data
  let host := extract_host query
  let hostSuffix := match host with | some h => " - " ++ h | none => ""
  if containsSub "cpu".data lq then
    PyVal.dict
      [("chartType", PyVal.str "line"),
       ("labels", PyVal.list []),
       ("datasets",
        PyVal.list [PyVal.dict [("label", PyVal.str "CPU %"),
                                ("data", PyVal.list []),
                                ("color", PyVal.str "#1f77b4"),
                                ("fill", PyVal.bool false)]]),
       ("title", PyVal.str ("Uso de CPU" ++ hostSuffix))]
  else if containsSub "memória".data lq || containsSub "ram".data lq then
    PyVal.dict
      [("chartType", PyVal.str "line"),
       ("labels", PyVal.list []),
       ("datasets",
        PyVal.list [PyVal.dict [("label", PyVal.str "Memória %"),
                                ("data", PyVal.list []),
                                ("color", PyVal.str "#ff7f0e"),
                                ("fill", PyVal.bool false)]]),
       ("title", PyVal.str ("Uso de Memória" ++ hostSuffix))]
  else if containsSub "disco".data lq then
    PyVal.dict
      [("chartType", PyVal.str "line"),
       ("labels", PyVal.list []),
       ("datasets",
        PyVal.list [PyVal.dict [("label", PyVal.str "Disco %"),
                                ("data", PyVal.list []),
                                ("color", PyVal.str "#2ca02c"),
                                ("fill", PyVal.bool false)]]),
       ("title", PyVal.str ("Uso de Disco" ++ hostSuffix))]
  else
    PyVal.dict
      [("chartType", PyVal.str "line"),
       ("labels", PyVal.list []),
       ("datasets", PyVal.list [])]

/-! ### The orchestrating endpoint (`src/backend/api.py` → `process_query`) -/

/-- The caller-facing response record (`ZabbiaResponse`).  `data` is the dict
the handler accumulates (initialised `{}`); `conversation_id` is always set
by the handler. -/
structure ZabbiaResponse where
  response : String
  data : PyVal
  sql : Option String
  charts : Option (List PyVal)
  conversation_id : String

/-- The external monitoring-API collaborator, abstracted to its responses:
`get_host_by_name` yields the host's id when found, `set_host_maintenance`
yields the created maintenance id on success. -/
structure ZabbixEnv where
  get_host_by_name : String → Option String
  set_host_maintenance : String → String → Int → Option String

/-- Simulated HIGH_CPU result rows (`api.py`, example data). -/
def simHighCpuHosts : PyVal :=
  PyVal.list
    [PyVal.dict [("name", PyVal.str "web01.example.com"), ("cpu_usage", PyVal.flt (92.5 : Rat))],
     PyVal.dict [("name", PyVal.str "web02.example.com"), ("cpu_usage", PyVal.flt (88.7 : Rat))],
     PyVal.dict [("name", PyVal.str "db01.example.com"), ("cpu_usage", PyVal.flt (85.3 : Rat))]]

/-- Simulated HOST_STATUS result rows. -/
def simStatusData : PyVal :=
  PyVal.dict
    [("hosts",
      PyVal.list
        [PyVal.dict [("name", PyVal.str "web01.example.com"), ("status", PyVal.str "Enabled"),
                     ("availability", PyVal.str "Available")],
         PyVal.dict [("name", PyVal.str "web02.example.com"), ("status", PyVal.str "Enabled"),
                     ("availability", PyVal.str "Available")],
         PyVal.dict [("name", PyVal.str "db01.example.com"), ("status", PyVal.str "Enabled"),
                     ("availability", PyVal.str "Available")],
         PyVal.dict [("name", PyVal.str "monitor01.example.com"), ("status", PyVal.str "Enabled"),
                     ("availability", PyVal.str "Unavailable")]]),
     ("count", PyVal.int 4), ("available", PyVal.int 3), ("unavailable", PyVal.int 1)]

/-- Simulated UNAVAILABLE_SERVICES result rows. -/
def simServicesData : PyVal :=
  PyVal.dict
    [("services",
      PyVal.list
        [PyVal.dict [("host", PyVal.str "web01.example.com"),
                     ("service", PyVal.str "HTTP Service"),
                     ("since", PyVal.str "2023-06-15T14:30:00")],
         PyVal.dict [("host", PyVal.str "db01.example.com"),
                     ("service", PyVal.str "MySQL Service"),
                     ("since", PyVal.str "2023-06-15T15:45:00")]]),
     ("count", PyVal.int 2)]

/-- Simulated HOST_UPTIME result rows. -/
def simUptimeData : PyVal :=
  PyVal.dict
    [("hosts",
      PyVal.list
        [PyVal.dict [("name", PyVal.str "web01.example.com"), ("uptime_days", PyVal.flt (45.2 : Rat))],
         PyVal.dict [("name", PyVal.str "web02.example.com"), ("uptime_days", PyVal.flt (12.7 : Rat))],
         PyVal.dict [("name", PyVal.str "db01.example.com"), ("uptime_days", PyVal.flt (78.5 : Rat))]])]

/-- Simulated ALERT_SUMMARY result rows. -/
def simAlertsData : PyVal :=
  PyVal.dict
    [("alerts",
      PyVal.list
        [PyVal.dict [("host", PyVal.str "web01.example.com"), ("problem", PyVal.str "CPU alto"),
                     ("severity", PyVal.str "High")],
         PyVal.dict [("host", PyVal.str "db01.example.com"), ("problem", PyVal.str "Disco cheio"),
                     ("severity", PyVal.str "Disaster")],
         PyVal.dict [("host", PyVal.str "web02.example.com"),
                     ("problem", PyVal.str "Serviço HTTP indisponível"),
                     ("severity", PyVal.str "Average")]]),
     ("count", PyVal.int 3),
     ("by_severity", PyVal.dict [("Disaster", PyVal.int 1), ("High", PyVal.int 1),
                                 ("Average", PyVal.int 1)])]

/-- Simulated host list for the generic (`method`-bearing) fallthrough. -/
def simGenericData : PyVal :=
  PyVal.dict
    [("hosts",
      PyVal.list
        [PyVal.dict [("name", PyVal.str "web01.example.com"), ("status", PyVal.str "Enabled")],
         PyVal.dict [("name", PyVal.str "web02.example.com"), ("status", PyVal.str "Enabled")],
         PyVal.dict [("name", PyVal.str "db01.example.com"), ("status", PyVal.str "Enabled")]]),
     ("count", PyVal.int 3)]

/-- Non-production responses get the processing-time footer appended; with a
single injected clock the elapsed `time() - start_time` is `0.00`. -/
def envSuffix (environment : String) (t : String) : String :=
  if environment ≠ "production" then t ++ "\n\nConsulta processada em 0.00 segundos." else t

/-- Model of `request.conversation_id or f"zabbia-{int(time())}"` (Python `or`: an
empty string is falsy). -/
def convIdOf (cid : Option String) (now : Int) : String :=
  match cid with
  | some s => if s = "" then "zabbia-" ++ toString now else s
  | none => "zabbia-" ++ toString now

/-- Branch bodies of the `/query` handler, abstracted over the precomputed
`intent` and `host`.

Inputs beyond the request (`query`, `cid`): the injected clock `now`
(`datetime.now()` / `time()`), the configured `environment`, the external
Zabbix collaborator `zb`, and the stream `rng` of values the global PRNG
yields to `random.randint` (the handler's only nondeterminism).  The
`try`/`except` of the handler is the `Except` wrapper: the only in-model
fault is the `KeyError` the graph branch hits when `chart_data` has no
`title` key. -/
def process_query_core (intent : String) (host : Option String) (query : String)
    (cid : Option String) (now : Int) (environment : String) (zb : ZabbixEnv)
    (rng : Nat → Int) : Except String ZabbiaResponse :=
  if intent = QueryIntent.graph_request then
    let cd0 := generate_graph_data query
    let labels : List PyVal :=
      (List.range 12).map (fun k => PyVal.str (hhmm (now - (12 - (k : Int)) * 3600)))
    let cd1 := dictSet cd0 "labels" (PyVal.list labels)
    let cd2 :=
      match dictGet cd1 "datasets" with
      | some (PyVal.list (d0 :: ds)) =>
        dictSet cd1 "datasets"
          (PyVal.list
            (dictSet d0 "data" (PyVal.list ((List.range 12).map (fun k => PyVal.int (rng k))))
              :: ds))
      | _ => cd1
    match dictGet cd2 "title" with
    | some (PyVal.str t) =>
      Except.ok ⟨envSuffix environment ("Aqui está o gráfico solicitado para " ++ t),
                 PyVal.dict [], none, some [cd2], convIdOf cid now⟩
    | _ => Except.error "KeyError: \x27title\x27"
  else if intent = QueryIntent.host_maintenance then
    match host with
    | none =>
      Except.ok ⟨envSuffix environment
                   "Por favor, especifique qual host deseja colocar em manutenção.",
                 PyVal.dict [], none, none, convIdOf cid now⟩
    | some h =>
      match zb.get_host_by_name h with
      | none =>
        Except.ok ⟨envSuffix environment
                     ("Host \x27" ++ h ++ "\x27 não encontrado no Zabbix."),
                   PyVal.dict [], none, none, convIdOf cid now⟩
      | some hostid =>
        let duration := extract_duration query 60
        match zb.set_host_maintenance hostid ("Manutenção via Zabbia - " ++ h)
                ((duration : Int) * 60) with
        | some mid =>
          Except.ok ⟨envSuffix environment
                       ("Host " ++ h ++ " colocado em manutenção por "
                         ++ Nat.repr duration ++ " minutos."),
                     PyVal.dict [("maintenance_id", PyVal.str mid), ("host", PyVal.str h),
                                 ("duration_minutes", PyVal.int duration)],
                     none, none, convIdOf cid now⟩
        | none =>
          Except.ok ⟨envSuffix environment
                       ("Erro ao colocar host " ++ h ++ " em manutenção."),
                     PyVal.dict [], none, none, convIdOf cid now⟩
  else if intent = QueryIntent.high_cpu ∨ intent = QueryIntent.memory_usage
      ∨ intent = QueryIntent.host_status ∨ intent = QueryIntent.host_uptime
      ∨ intent = QueryIntent.unavailable_services ∨ intent = QueryIntent.alert_summary then
    let gen := generate_sql now query
    let sql := some gen.1
    if intent = QueryIntent.high_cpu then
      let thr : Int := match lookupCtx "threshold" gen.2 with
        | some (CtxVal.i n) => n
        | _ => 80
      Except.ok ⟨envSuffix environment
                   ("Encontrados 3 hosts com CPU acima de " ++ toString thr ++ "%."),
                 PyVal.dict [("hosts", simHighCpuHosts), ("count", PyVal.int 3),
                             ("threshold", PyVal.int thr)],
                 sql, none, convIdOf cid now⟩
    else if intent = QueryIntent.host_status then
      Except.ok ⟨envSuffix environment
                   "Status atual dos hosts: 3 disponíveis, 1 indisponíveis.",
                 simStatusData, sql, none, convIdOf cid now⟩
    else if intent = QueryIntent.unavailable_services then
      Except.ok ⟨envSuffix environment "Há 2 serviços indisponíveis atualmente.",
                 simServicesData, sql, none, convIdOf cid now⟩
    else if intent = QueryIntent.host_uptime then
      let host_name := match host with | some h => h | none => "todos os hosts"
      Except.ok ⟨envSuffix environment ("Uptime para " ++ host_name ++ ":"),
                 simUptimeData, sql, none, convIdOf cid now⟩
    else if intent = QueryIntent.alert_summary then
      Except.ok ⟨envSuffix environment
                   "Resumo de alertas: 3 problemas ativos, incluindo 1 críticos.",
                 simAlertsData, sql, none, convIdOf cid now⟩
    else
      -- MEMORY_USAGE: no inner branch assigns data or response_text
      Except.ok ⟨envSuffix environment "", PyVal.dict [], sql, none, convIdOf cid now⟩
  else
    let api := generate_api_call now query
    match api.1 with
    | some _ =>
      Except.ok ⟨envSuffix environment "Encontrados 3 hosts no sistema.",
                 simGenericData, none, none, convIdOf cid now⟩
    | none =>
      Except.ok ⟨envSuffix environment
                   "Não consegui entender sua consulta. Pode reformular de outra forma?",
                 PyVal.dict [], none, none, convIdOf cid now⟩

/-- The `/query` handler `process_query` of `src/backend/api.py` (see
`process_query_core` for the branch bodies; the handler computes `intent`,
`host` and the unused `time_range` before branching). -/
def process_query (query : String) (cid : Option String) (now : Int)
    (environment : String) (zb : ZabbixEnv) (rng : Nat → Int) :
    Except String ZabbiaResponse :=
  process_query_core (detect_intent query) (extract_host query) query cid now
    environment zb rng

/-! ### Spec-side companion definitions -/

/-- Modelled from the spec (§4.2): the canonical intent declaration order
`HighCpu, MemoryUsage, DiskUsage, HostStatus, HostUptime,
UnavailableServices, AlertSummary, GraphRequest, HostMaintenance`. -/
def canonicalOrder : List String :=
  [QueryIntent.high_cpu, QueryIntent.memory_usage, QueryIntent.disk_usage,
   QueryIntent.host_status, QueryIntent.host_uptime, QueryIntent.unavailable_services,
   QueryIntent.alert_summary, QueryIntent.graph_request, QueryIntent.host_maintenance]

/-- The patterns declared for an intent in the classifier's table. -/
def patternsOf (i : String) : List RE :=
  match intentTable.find? (fun e => e.1 = i) with
  | some e => e.2
  | none => []

/-- Does some pattern of intent `i` match the normalized text? -/
def intentAnyMatch (i : String) (nq : List Char) : Bool :=
  (patternsOf i).any (fun r => reSearch r nq)

/-- Modelled from the spec (§4.2): iterate the canonical order; return the
first intent one of whose patterns matches anywhere; else `GeneralQuery`. -/
def classifySpec (nq : List Char) : String :=
  match canonicalOrder.find? (fun i => intentAnyMatch i nq) with
  | some i => i
  | none => QueryIntent.general_query

/-- The spec's full-match period-token shape `^\d+[mhd]$`: a non-empty ASCII
digit run followed by one final `m`/`h`/`d`. -/
def fullPeriodTok (s : String) : Bool :=
  match s.data.reverse with
  | [] => false
  | u :: rds =>
    (u == 'm' || u == 'h' || u == 'd') && !rds.isEmpty && rds.all Char.isDigit

/-- The SQL `LIKE` pattern metacharacters: `%` (any substring) and `_`
(any single character). -/
def sqlLikeWildcardChars : List Char := ['%', '_']

/-! ### General-purpose lemmas -/

lemma isPrefixB_append_self : ∀ (p t : List Char), isPrefixB p (p ++ t) = true := by
  intro p
  induction p with
  | nil => intro t; rfl
  | cons c cs ih => intro t; simp [isPrefixB, ih]

lemma containsSub_of_pre : ∀ (p l : List Char), isPrefixB p l = true → containsSub p l = true := by
  intro p l h
  cases l with
  | nil => simpa [containsSub] using h
  | cons c rest => simp [containsSub, h]

lemma containsSub_append_self (p t : List Char) : containsSub p (p ++ t) = true :=
  containsSub_of_pre p (p ++ t) (isPrefixB_append_self p t)

lemma parseVal_append (l1 l2 : List Char) :
    ∀ a, parseVal a (l1 ++ l2) = parseVal (parseVal a l1) l2 := by
  induction l1 with
  | nil => intro a; rfl
  | cons c cs ih =>
    intro a
    rw [List.cons_append]
    show parseVal (a * 10 + (c.toNat - 48)) (cs ++ l2)
      = parseVal (parseVal (a * 10 + (c.toNat - 48)) cs) l2
    exact ih _

lemma takeWhile_all_append (p : Char → Bool) :
    ∀ (l t : List Char), (∀ c ∈ l, p c = true) → (l ++ t).takeWhile p = l ++ t.takeWhile p := by
  intro l
  induction l with
  | nil => intro t _; rfl
  | cons c cs ih =>
    intro t h
    have hc : p c = true := h c (by simp)
    simp [List.takeWhile_cons, hc, ih t (fun x hx => h x (by simp [hx]))]

set_option maxHeartbeats 1000000 in
/-- Digit characters produced by `Nat.digitChar` below base 10 are decimal
digits, are fixed by `lowerChar`, and decode back to their value. -/
lemma digitChar_facts : ∀ m : Nat, m < 10 →
    (Nat.digitChar m).isDigit = true ∧ lowerChar (Nat.digitChar m) = Nat.digitChar m
      ∧ (Nat.digitChar m).toNat - 48 = m := by
  decide

set_option maxHeartbeats 1000000 in
/-- Round trip for the core decimal printer: printing `n` prepends a nonempty
all-digit run that `parseVal` decodes back to `n`. -/
lemma toDigitsCore_spec : ∀ (fuel n : Nat) (ds : List Char), n < fuel →
    ∃ pre, Nat.toDigitsCore 10 fuel n ds = pre ++ ds ∧ pre ≠ [] ∧
      (∀ c ∈ pre, c.isDigit = true ∧ lowerChar c = c) ∧
      ∀ a, parseVal a pre = a * 10 ^ pre.length + n := by
  intro fuel
  induction fuel with
  | zero => intro n ds h; exact absurd h (Nat.not_lt_zero n)
  | succ f ih =>
    intro n ds h
    rw [Nat.toDigitsCore]
    have hm : n % 10 < 10 := Nat.mod_lt _ (by norm_num)
    obtain ⟨hdig, hlow, hval⟩ := digitChar_facts (n % 10) hm
    by_cases h10 : n / 10 = 0
    · refine ⟨[Nat.digitChar (n % 10)], by simp [h10], by simp, ?_, ?_⟩
      · intro c hc
        rw [List.mem_singleton] at hc
        subst hc
        exact ⟨hdig, hlow⟩
      · intro a
        have hlt : n < 10 := by omega
        have hmod : n % 10 = n := Nat.mod_eq_of_lt hlt
        show a * 10 + ((Nat.digitChar (n % 10)).toNat - 48)
          = a * 10 ^ ([Nat.digitChar (n % 10)] : List Char).length + n
        rw [hval, hmod, List.length_singleton, pow_one]
    · have hpos : 0 < n := Nat.pos_of_ne_zero (fun h0 => h10 (by simp [h0]))
      have hn' : n / 10 < f :=
        lt_of_lt_of_le (Nat.div_lt_self hpos (by norm_num)) (Nat.lt_succ_iff.mp h)
      obtain ⟨pre, hpre, hne, hdigs, hvals⟩ := ih (n / 10) (Nat.digitChar (n % 10) :: ds) hn'
      refine ⟨pre ++ [Nat.digitChar (n % 10)], ?_, by simp, ?_, ?_⟩
      · simp only [h10, if_false, hpre, List.append_assoc, List.singleton_append]
      · intro c hc
        rcases List.mem_append.mp hc with hc | hc
        · exact hdigs c hc
        · rw [List.mem_singleton] at hc
          subst hc
          exact ⟨hdig, hlow⟩
      · intro a
        rw [parseVal_append, hvals]
        show (a * 10 ^ pre.length + n / 10) * 10 + ((Nat.digitChar (n % 10)).toNat - 48)
          = a * 10 ^ (pre ++ [Nat.digitChar (n % 10)]).length + n
        rw [hval, List.length_append, List.length_singleton, pow_succ]
        calc (a * 10 ^ pre.length + n / 10) * 10 + n % 10
            = a * (10 ^ pre.length * 10) + (n / 10 * 10 + n % 10) := by ring
          _ = a * (10 ^ pre.length * 10) + n := by rw [Nat.div_add_mod']

/-- Printing via `Nat.repr` gives a nonempty all-digit string that decodes back. -/
lemma repr_digits (n : Nat) :
    (Nat.repr n).data ≠ [] ∧ (∀ c ∈ (Nat.repr n).data, c.isDigit = true ∧ lowerChar c = c)
      ∧ parseVal 0 (Nat.repr n).data = n := by
  obtain ⟨pre, hpre, hne, hdigs, hvals⟩ :=
    toDigitsCore_spec (n + 1) n [] (Nat.lt_succ_self n)
  have hd : (Nat.repr n).data = pre := by
    show (Nat.toDigits 10 n).asString.data = pre
    rw [Nat.toDigits, hpre, List.append_nil]
    rfl
  rw [hd]
  refine ⟨hne, hdigs, ?_⟩
  simpa using hvals 0

lemma find?_congr_mem {α} (p p' : α → Bool) :
    ∀ l : List α, (∀ a ∈ l, p a = p' a) → l.find? p = l.find? p' := by
  intro l
  induction l with
  | nil => intro _; rfl
  | cons x xs ih =>
    intro h
    have hx := h x (by simp)
    rw [List.find?_cons, List.find?_cons, hx, ih (fun a ha => h a (by simp [ha]))]

/-- If `find?` over a duplicate-free list returns `j`, every element listed
before `j` fails the predicate. -/
lemma find?_before {p : String → Bool} :
    ∀ (l1 : List String) (j : String) (l2 : List String),
      (l1 ++ j :: l2).Nodup → (l1 ++ j :: l2).find? p = some j → ∀ i ∈ l1, p i = false := by
  intro l1
  induction l1 with
  | nil => intro j l2 _ _ i hi; cases hi
  | cons x xs ih =>
    intro j l2 hnd hf i hi
    rw [List.cons_append, List.find?_cons] at hf
    have hx : ¬ x ∈ xs ++ j :: l2 := (List.nodup_cons.mp hnd).1
    cases hpx : p x with
    | true =>
      rw [hpx] at hf
      have hxj : x = j := by
        have := hf
        injection this
      exact absurd (hxj ▸ (List.mem_append.mpr (Or.inr (by simp)))) hx
    | false =>
      rw [hpx] at hf
      rcases List.mem_cons.mp hi with rfl | hi'
      · exact hpx
      · exact ih j l2 (List.nodup_cons.mp hnd).2 hf i hi'

/-- Every table entry's patterns are what `patternsOf` looks up for its
intent name (the nine names are distinct). -/
lemma table_patterns : ∀ e ∈ intentTable,
    ∀ nq : List Char, intentAnyMatch e.1 nq = e.2.any (fun r => reSearch r nq) := by
  intro e he
  simp only [intentTable, List.mem_cons, List.not_mem_nil, or_false] at he
  rcases he with rfl | rfl | rfl | rfl | rfl | rfl | rfl | rfl | rfl <;> (intro nq; rfl)

/-- Claim C2: For every input, `detect_intent` equals the spec's canonical
first-match classifier (iterate the intent table in the canonical declaration
order HighCpu, MemoryUsage, DiskUsage, HostStatus, HostUptime,
UnavailableServices, AlertSummary, GraphRequest, HostMaintenance, patterns in
declaration order, first match anywhere wins, `GeneralQuery` when nothing
matches); the returned intent matches unless it is the fallback; and every
intent declared before the returned one fails to match — so a text matching
the patterns of two intents always resolves to the earlier-declared one. -/
theorem claim_C2_order (q : String) :
    detect_intent q = classifySpec (pyLower q).data
      ∧ (detect_intent q = QueryIntent.general_query
          ∨ intentAnyMatch (detect_intent q) (pyLower q).data = true)
      ∧ ∀ (l1 l2 : List String) (i : String),
          canonicalOrder = l1 ++ detect_intent q :: l2 → i ∈ l1 →
            intentAnyMatch i (pyLower q).data = false := by
  have hmap : canonicalOrder = intentTable.map Prod.fst := by rfl
  have hcong :
      intentTable.find? ((fun i => intentAnyMatch i (pyLower q).data) ∘ Prod.fst)
        = intentTable.find? (fun e => e.2.any (fun r => reSearch r (pyLower q).data)) :=
    find?_congr_mem _ _ intentTable (fun e he => table_patterns e he (pyLower q).data)
  have hclassify : detect_intent q = classifySpec (pyLower q).data := by
    unfold detect_intent classifySpec
    rw [hmap, List.find?_map, hcong]
    cases hfind :
        intentTable.find? (fun e => e.2.any (fun r => reSearch r (pyLower q).data)) with
    | none => rfl
    | some e => rfl
  refine ⟨hclassify, ?_, ?_⟩
  · cases hfind :
        intentTable.find? (fun e => e.2.any (fun r => reSearch r (pyLower q).data)) with
    | none =>
      left
      unfold detect_intent
      rw [hfind]
    | some e =>
      right
      have hd : detect_intent q = e.1 := by
        unfold detect_intent
        rw [hfind]
      have hmem := List.mem_of_find?_eq_some hfind
      have hp := List.find?_some hfind
      rw [hd, table_patterns e hmem]
      exact hp
  · intro l1 l2 i hdec hi
    have hnodup : (l1 ++ detect_intent q :: l2).Nodup := by
      rw [← hdec]
      decide
    have hfind :
        canonicalOrder.find? (fun i => intentAnyMatch i (pyLower q).data)
          = some (detect_intent q) := by
      cases hfind :
          canonicalOrder.find? (fun i => intentAnyMatch i (pyLower q).data) with
      | none =>
        exfalso
        have hgen : detect_intent q = QueryIntent.general_query := by
          rw [hclassify]
          unfold classifySpec
          rw [hfind]
        have hmem : detect_intent q ∈ canonicalOrder := by
          rw [hdec]
          exact List.mem_append.mpr (Or.inr (by simp))
        rw [hgen] at hmem
        exact absurd hmem (by decide)
      | some j =>
        have : classifySpec (pyLower q).data = j := by
          unfold classifySpec
          rw [hfind]
        rw [hclassify, this]
    rw [hdec] at hfind
    exact find?_before l1 (detect_intent q) l2 hnodup hfind i hi

/-- Claim C2 witness:  `"uso de disco"` classifies as DiskUsage, and the claim's
order part applied with the canonical decomposition around DiskUsage shows the
earlier-declared HighCpu does not match it. -/
theorem claim_C2_order_witness :
    detect_intent "uso de disco" = QueryIntent.disk_usage
      ∧ intentAnyMatch QueryIntent.high_cpu (pyLower "uso de disco").data = false :=
  ⟨by decide,
   (claim_C2_order "uso de disco").2.2
     [QueryIntent.high_cpu, QueryIntent.memory_usage]
     [QueryIntent.host_status, QueryIntent.host_uptime, QueryIntent.unavailable_services,
      QueryIntent.alert_summary, QueryIntent.graph_request, QueryIntent.host_maintenance]
     QueryIntent.high_cpu (by decide) (by decide)⟩

lemma map_self_of_mem (f : Char → Char) :
    ∀ l : List Char, (∀ c ∈ l, f c = c) → l.map f = l := by
  intro l
  induction l with
  | nil => intro _; rfl
  | cons c cs ih =>
    intro h
    rw [List.map_cons, h c (by simp), ih (fun x hx => h x (by simp [hx]))]

lemma parsePeriodL_canonical (ds : List Char) (u : Char) (hne : ds ≠ [])
    (hdigs : ∀ c ∈ ds, c.isDigit = true) (hdigu : u.isDigit = false)
    (hu : (u == 'd' || u == 'h' || u == 'm') = true) :
    parsePeriodL (ds ++ [u]) = some (parseVal 0 ds, u) := by
  have htw : (ds ++ [u]).takeWhile Char.isDigit = ds := by
    rw [takeWhile_all_append _ ds [u] hdigs]
    simp [List.takeWhile_cons, hdigu]
  have hemp : ds.isEmpty = false := by
    cases ds with
    | nil => exact absurd rfl hne
    | cons a as => rfl
  unfold parsePeriodL
  rw [htw, List.drop_left, hemp]
  simp [hu]

/-- Parsing a canonically printed token `Nat.repr v ++ u` recovers `(v, u)`. -/
lemma parsePeriod_canonical (v : Nat) (u : Char)
    (hu : u = 'm' ∨ u = 'h' ∨ u = 'd') :
    parsePeriod (Nat.repr v ++ String.singleton u) = some (v, u) := by
  obtain ⟨hne, hdigs, hval⟩ := repr_digits v
  have hlowu : lowerChar u = u := by rcases hu with rfl | rfl | rfl <;> decide
  have hdigu : u.isDigit = false := by rcases hu with rfl | rfl | rfl <;> decide
  have hub : (u == 'd' || u == 'h' || u == 'm') = true := by
    rcases hu with rfl | rfl | rfl <;> decide
  have hdata : (pyLower (Nat.repr v ++ String.singleton u)).data
      = (Nat.repr v).data ++ [u] := by
    show ((Nat.repr v ++ String.singleton u).data).map lowerChar
      = (Nat.repr v).data ++ [u]
    rw [String.data_append, String.data_singleton, List.map_append,
        map_self_of_mem lowerChar _ (fun c hc => (hdigs c hc).2)]
    simp [hlowu]
  unfold parsePeriod
  rw [hdata,
      parsePeriodL_canonical _ u hne (fun c hc => (hdigs c hc).1) hdigu hub, hval]

/-- Claim C3 counterexample:  Two tokens matching `^\d+[mhd]$` defeat the claim
as stated: `"0h"` yields a window with `from = to` (not `from < to`), and
`"07h"` yields the label `"7h"`, not the input token. -/
theorem claim_C3_counterexample :
    fullPeriodTok "0h" = true ∧ fullPeriodTok "07h" = true
      ∧ ¬ (TimeRange.from_period 1700000000 "0h").from_timestamp
            < (TimeRange.from_period 1700000000 "0h").to_timestamp
      ∧ (TimeRange.from_period 1700000000 "07h").time_period ≠ "07h" := by
  refine ⟨by decide, by decide, by decide, by decide⟩

/-- Claim C3 amended:  For every period token that is the canonical decimal
print of a positive magnitude followed by `m`, `h` or `d`, the resolved
window's label equals the token and its `from` is strictly below its `to`. -/
theorem claim_C3_amended (now : Int) (v : Nat) (u : Char) (hv : 1 ≤ v)
    (hu : u = 'm' ∨ u = 'h' ∨ u = 'd') :
    (TimeRange.from_period now (Nat.repr v ++ String.singleton u)).time_period
        = Nat.repr v ++ String.singleton u
      ∧ (TimeRange.from_period now (Nat.repr v ++ String.singleton u)).from_timestamp
        < (TimeRange.from_period now (Nat.repr v ++ String.singleton u)).to_timestamp := by
  have hp := parsePeriod_canonical v u hu
  have hvpos : (0 : Int) < (v : Int) := by exact_mod_cast hv
  rcases hu with rfl | rfl | rfl <;>
    · rw [TimeRange.from_period, hp]
      exact ⟨rfl, by simp; omega⟩

/-- Claim C3 witness at `v = 3`, `u = 'h'`. -/
theorem claim_C3_amended_witness :
    (1 ≤ 3
      ∧ (TimeRange.from_period 1700000000 (Nat.repr 3 ++ String.singleton 'h')).time_period
        = Nat.repr 3 ++ String.singleton 'h')
      ∧ (TimeRange.from_period 1700000000 (Nat.repr 3 ++ String.singleton 'h')).from_timestamp
        < (TimeRange.from_period 1700000000 (Nat.repr 3 ++ String.singleton 'h')).to_timestamp :=
  ⟨⟨by norm_num,
    (claim_C3_amended 1700000000 3 'h' (by norm_num) (Or.inr (Or.inl rfl))).1⟩,
   (claim_C3_amended 1700000000 3 'h' (by norm_num) (Or.inr (Or.inl rfl))).2⟩

/-- Claim C4 counterexample:  The token `"3hx"` does not match `^\d+[mhd]$`, yet
the resolver does not return the default 24-hour window for it: the code's
`re.match` is anchored only at the start, so it parses the `"3h"` prefix. -/
theorem claim_C4_counterexample :
    fullPeriodTok "3hx" = false
      ∧ TimeRange.from_period 1700000000 "3hx"
          ≠ (⟨1700000000 - 24 * 3600, 1700000000, "24h"⟩ : TimeRange)
      ∧ (TimeRange.from_period 1700000000 "3hx").time_period = "3h" := by
  refine ⟨by decide, by decide, by decide⟩

/-- Claim C4 amended:  If the token is absent (the Python default `"24h"`
applies) or its lowercased form has no prefix of digits followed by
`m`/`h`/`d`, the resolver silently returns the default 24-hour window
(`from = now − 24h`, `to = now`, label `"24h"`); it is a total function, so it
never raises.  (Tokens that merely have trailing junk after a valid prefix
are parsed from that prefix instead — see the counterexample.) -/
theorem claim_C4_amended (now : Int) (s : String) (h : parsePeriod s = none) :
    TimeRange.from_period now s = ⟨now - 24 * 3600, now, "24h"⟩
      ∧ TimeRange.from_period now = ⟨now - 24 * 3600, now, "24h"⟩ := by
  constructor
  · rw [TimeRange.from_period, h]
  · rfl

/-- Claim C4 witness at `s = "abc"`. -/
theorem claim_C4_amended_witness :
    parsePeriod "abc" = none
      ∧ TimeRange.from_period 1700000000 "abc"
          = (⟨1700000000 - 24 * 3600, 1700000000, "24h"⟩ : TimeRange) :=
  ⟨by decide, (claim_C4_amended 1700000000 "abc" (by decide)).1⟩

/-- The input of end-to-end scenario 1. -/
def c1query : String := "quais hosts estão com cpu acima de 90% nas últimas 3 horas"

set_option maxRecDepth 4000 in
/-- Claim C1 counterexample:  For scenario 1's input, the generated SQL text
does use the `:from_time` placeholder, but the bindings context contains no
`from_time` entry — the window travels under the `time_range` key as a
`TimeRange` object, so the claim's "bindings context contains … a `from_time`
binding" is false on the code. -/
theorem claim_C1_counterexample :
    containsSub ":from_time".data (generate_sql 1700000000 c1query).1.data = true
      ∧ lookupCtx "from_time" (generate_sql 1700000000 c1query).2 = none := by
  refine ⟨by decide, by decide⟩

set_option maxRecDepth 4000 in
/-- Claim C1 amended:  For scenario 1's input, the intent is HighCpu, the
threshold is 90, the window label is `"3h"`, and the artifact is SQL whose
bindings context contains a threshold binding of value 90 and a `time_range`
binding carrying the resolved `"3h"` window (whose endpoints fill the
`:from_time`/`:to_time` placeholders at execution time); the SQL text
contains no host filter clause. -/
theorem claim_C1_scenario (now : Int) :
    detect_intent c1query = QueryIntent.high_cpu
      ∧ extract_threshold c1query 80 = 90
      ∧ (extract_time_range now c1query).time_period = "3h"
      ∧ lookupCtx "threshold" (generate_sql now c1query).2 = some (CtxVal.i 90)
      ∧ lookupCtx "time_range" (generate_sql now c1query).2
          = some (CtxVal.tr (TimeRange.from_period now "3h"))
      ∧ containsSub hostClause.data (generate_sql now c1query).1.data = false := by
  exact ⟨rfl, rfl, rfl, rfl, rfl, rfl⟩

lemma hostAfterKw_tok : ∀ (r tok : List Char), hostAfterKw r = some tok →
    tok ≠ [] ∧ ∀ c ∈ tok, isHostTokenChar c = true := by
  intro r tok h
  cases r with
  | nil => exact absurd h (by simp [hostAfterKw])
  | cons c rest =>
    by_cases hsep : isSepChar c = true
    · simp only [hostAfterKw, hsep, if_true] at h
      cases htw : (rest.dropWhile isSepChar).takeWhile isHostTokenChar with
      | nil => rw [htw] at h; exact absurd h (by simp)
      | cons t ts =>
        rw [htw] at h
        have htok : t :: ts = tok := by injection h
        subst htok
        refine ⟨by simp, ?_⟩
        intro x hx
        have hx2 : x ∈ (rest.dropWhile isSepChar).takeWhile isHostTokenChar := by
          rw [htw]; exact hx
        exact List.mem_takeWhile_imp hx2
    · simp [hostAfterKw, hsep] at h

lemma optBind_host (o : Option (List Char)) (tok : List Char)
    (h : o.bind hostAfterKw = some tok) :
    tok ≠ [] ∧ ∀ c ∈ tok, isHostTokenChar c = true := by
  cases o with
  | none => exact absurd h (by simp)
  | some r => exact hostAfterKw_tok r tok (by simpa using h)

lemma hostTryAt_tok (l tok : List Char) (h : hostTryAt l = some tok) :
    tok ≠ [] ∧ ∀ c ∈ tok, isHostTokenChar c = true := by
  unfold hostTryAt at h
  rcases h1 : (stripPre "host".data l).bind hostAfterKw with _ | t <;> rw [h1] at h
  case some =>
    simp only [Option.some_orElse] at h
    cases h
    exact optBind_host _ _ h1
  case none =>
    simp only [Option.none_orElse] at h
    rcases h2 : (stripPre "servidora".data l).bind hostAfterKw with _ | t <;> rw [h2] at h
    case some =>
      simp only [Option.some_orElse] at h
      cases h
      exact optBind_host _ _ h2
    case none =>
      simp only [Option.none_orElse] at h
      rcases h3 : (stripPre "servidor".data l).bind hostAfterKw with _ | t <;> rw [h3] at h
      case some =>
        simp only [Option.some_orElse] at h
        cases h
        exact optBind_host _ _ h3
      case none =>
        simp only [Option.none_orElse] at h
        exact optBind_host _ _ h

lemma hostSearch_tok : ∀ (l tok : List Char), hostSearch l = some tok →
    tok ≠ [] ∧ ∀ c ∈ tok, isHostTokenChar c = true := by
  intro l
  induction l with
  | nil => intro tok h; exact absurd h (by simp [hostSearch])
  | cons c rest ih =>
    intro tok h
    unfold hostSearch at h
    cases ht : hostTryAt (c :: rest) with
    | some t =>
      rw [ht] at h
      cases h
      exact hostTryAt_tok _ _ ht
    | none =>
      rw [ht] at h
      exact ih tok h

lemma char_ne_of_toNat_ne {c d : Char} (h : c.toNat ≠ d.toNat) : c ≠ d :=
  fun he => h (he ▸ rfl)

/-- A character admitted by the host-token class is not whitespace, not a
quote of either kind, and not a percent sign. -/
lemma hostChar_facts (c : Char) (hc : isHostTokenChar c = true) :
    isPySpace c = false ∧ c ≠ Char.ofNat 39 ∧ c ≠ '"' ∧ c ≠ '%' := by
  simp only [isHostTokenChar, Bool.or_eq_true, Bool.and_eq_true, decide_eq_true_eq,
    beq_iff_eq] at hc
  have h39 : (Char.ofNat 39).toNat = 39 := by decide
  have h34 : ('"').toNat = 34 := by decide
  have h37 : ('%').toNat = 37 := by decide
  refine ⟨?_, ?_, ?_, ?_⟩
  · simp only [isPySpace, Bool.or_eq_false_iff, decide_eq_false_iff_not]
    omega
  · exact char_ne_of_toNat_ne (by omega)
  · exact char_ne_of_toNat_ne (by omega)
  · exact char_ne_of_toNat_ne (by omega)

/-- Claim C10 counterexample:  `extract_host` can return `"web_01"`, whose LIKE
pattern `"%web_01%"` contains the underscore — itself a SQL LIKE
metacharacter — so "no other SQL pattern metacharacters" is false. -/
theorem claim_C10_counterexample :
    extract_host "host web_01" = some "web_01"
      ∧ '_' ∈ ("%" ++ "web_01" ++ "%").data
      ∧ '_' ∈ sqlLikeWildcardChars ∧ ('_' : Char) ≠ '%' := by
  refine ⟨by decide, by decide, by decide, by decide⟩

/-- Claim C10 amended:  Every non-none `extract_host` value is a non-empty
string over the class letters/digits/dot/dash/underscore — never whitespace,
quotes, or percent signs — so the built pattern `"%" ++ host ++ "%"` contains
exactly the two enclosing percent wildcards; it may, however, contain
underscores, which are single-character LIKE wildcards. -/
theorem claim_C10_host_charset (q h : String) (hh : extract_host q = some h) :
    h.data ≠ []
      ∧ (∀ c ∈ h.data, isHostTokenChar c = true)
      ∧ (∀ c ∈ h.data, isPySpace c = false ∧ c ≠ Char.ofNat 39 ∧ c ≠ '"' ∧ c ≠ '%')
      ∧ ("%" ++ h ++ "%").data.count '%' = 2 := by
  unfold extract_host at hh
  rcases Option.map_eq_some'.mp hh with ⟨tok, htok, rfl⟩
  have hprops := hostSearch_tok _ _ htok
  have hdata : (String.mk tok).data = tok := rfl
  refine ⟨by rw [hdata]; exact hprops.1, by rw [hdata]; exact hprops.2, ?_, ?_⟩
  · rw [hdata]
    intro c hc
    exact hostChar_facts c (hprops.2 c hc)
  · have hnp : ∀ c ∈ tok, c ≠ '%' := fun c hc =>
      (hostChar_facts c (hprops.2 c hc)).2.2.2
    rw [String.data_append, String.data_append, hdata]
    rw [List.count_append, List.count_append]
    have hz : tok.count '%' = 0 := by
      rw [List.count_eq_zero]
      intro hmem
      exact hnp '%' hmem rfl
    rw [hz]
    decide

/-- Claim C10 witness at `q = "host web01"`. -/
theorem claim_C10_host_charset_witness :
    extract_host "host web01" = some "web01"
      ∧ ("%" ++ "web01" ++ "%").data.count '%' = 2 :=
  ⟨by decide,
   (claim_C10_host_charset "host web01" "web01" (by decide)).2.2.2⟩

/-- The input of end-to-end scenario 3. -/
def c5query : String := "colocar host app01 em manutenção por 2 horas"

/-- Claim C5:  Every HostMaintenance query synthesizes the RPC
`maintenance.create` whose params carry an empty `hostids` list,
`maintenance_type 0`, and a single time period of type 0 lasting
`extract_duration · 60 * 60` seconds. -/
theorem claim_C5_maintenance_rpc (now : Int) (q : String)
    (h : detect_intent q = QueryIntent.host_maintenance) :
    (generate_api_call now q).1 = some "maintenance.create"
      ∧ dictGet (generate_api_call now q).2 "hostids" = some (PyVal.list [])
      ∧ dictGet (generate_api_call now q).2 "maintenance_type" = some (PyVal.int 0)
      ∧ dictGet (generate_api_call now q).2 "timeperiods"
        = some (PyVal.list
            [PyVal.dict [("timeperiod_type", PyVal.int 0),
                         ("period", PyVal.int ((extract_duration q 60 : Int) * 60))]]) := by
  have hg : generate_api_call now q
      = generate_api_call_core now QueryIntent.host_maintenance (extract_host q) q := by
    unfold generate_api_call
    rw [h]
  rw [hg]
  exact ⟨rfl, rfl, rfl, rfl⟩

/-- Claim C5 witness at scenario 3's input (duration 120 minutes, period 7200 s). -/
theorem claim_C5_maintenance_rpc_witness :
    (detect_intent c5query = QueryIntent.host_maintenance
      ∧ extract_duration c5query 60 = 120
      ∧ ((extract_duration c5query 60 : Int) * 60) = 7200)
      ∧ ((generate_api_call 1700000000 c5query).1 = some "maintenance.create"
          ∧ dictGet (generate_api_call 1700000000 c5query).2 "hostids"
            = some (PyVal.list [])
          ∧ dictGet (generate_api_call 1700000000 c5query).2 "maintenance_type"
            = some (PyVal.int 0)
          ∧ dictGet (generate_api_call 1700000000 c5query).2 "timeperiods"
            = some (PyVal.list
                [PyVal.dict [("timeperiod_type", PyVal.int 0),
                             ("period", PyVal.int ((extract_duration c5query 60 : Int) * 60))]])) :=
  ⟨⟨by decide, by decide, by decide⟩,
   claim_C5_maintenance_rpc 1700000000 c5query (by decide)⟩

set_option maxRecDepth 8000 in
lemma gsql_none (intent : String) (tr : TimeRange) (q : String) :
    (generate_sql_core intent none tr q).1 = baseSqlText intent
      ∧ lookupCtx "host_pattern" (generate_sql_core intent none tr q).2 = none
      ∧ containsSub hostClause.data (generate_sql_core intent none tr q).1.data = false := by
  by_cases h1 : intent = QueryIntent.high_cpu
  · subst h1; exact ⟨rfl, rfl, rfl⟩
  by_cases h2 : intent = QueryIntent.memory_usage
  · subst h2; exact ⟨rfl, rfl, rfl⟩
  by_cases h3 : intent = QueryIntent.host_status
  · subst h3; exact ⟨rfl, rfl, rfl⟩
  by_cases h4 : intent = QueryIntent.host_uptime
  · subst h4; exact ⟨rfl, rfl, rfl⟩
  by_cases h5 : intent = QueryIntent.unavailable_services
  · subst h5; exact ⟨rfl, rfl, rfl⟩
  by_cases h6 : intent = QueryIntent.alert_summary
  · subst h6; exact ⟨rfl, rfl, rfl⟩
  simp only [generate_sql_core, baseSqlText, if_neg h1, if_neg h2, if_neg h3, if_neg h4,
    if_neg h5, if_neg h6]
  exact ⟨rfl, rfl, rfl⟩

set_option maxRecDepth 8000 in
lemma gsql_some (intent : String) (h : String) (tr : TimeRange) (q : String) :
    containsSub hostClause.data (generate_sql_core intent (some h) tr q).1.data = true
      ∧ lookupCtx "host_pattern" (generate_sql_core intent (some h) tr q).2
        = some (CtxVal.s ("%" ++ h ++ "%")) := by
  by_cases h1 : intent = QueryIntent.high_cpu
  · subst h1; exact ⟨rfl, rfl⟩
  by_cases h2 : intent = QueryIntent.memory_usage
  · subst h2; exact ⟨rfl, rfl⟩
  by_cases h3 : intent = QueryIntent.host_status
  · subst h3; exact ⟨rfl, rfl⟩
  by_cases h4 : intent = QueryIntent.host_uptime
  · subst h4; exact ⟨rfl, rfl⟩
  by_cases h5 : intent = QueryIntent.unavailable_services
  · subst h5; exact ⟨rfl, rfl⟩
  by_cases h6 : intent = QueryIntent.alert_summary
  · subst h6; exact ⟨rfl, rfl⟩
  simp only [generate_sql_core, if_neg h1, if_neg h2, if_neg h3, if_neg h4, if_neg h5,
    if_neg h6]
  exact ⟨rfl, rfl⟩

/-- Claim C7:  For every query, the generated SQL contains the host filter
clause `h.name LIKE :host_pattern` and the context a `host_pattern` binding
exactly when a host was extracted; with no host, the emitted statement is the
intent's base template, with a host, the binding is the `%host%` pattern. -/
theorem claim_C7_host_filter (now : Int) (q : String) :
    (extract_host q = none →
        (generate_sql now q).1 = baseSqlText (detect_intent q)
          ∧ lookupCtx "host_pattern" (generate_sql now q).2 = none
          ∧ containsSub hostClause.data (generate_sql now q).1.data = false)
      ∧ ∀ h, extract_host q = some h →
          containsSub hostClause.data (generate_sql now q).1.data = true
            ∧ lookupCtx "host_pattern" (generate_sql now q).2
              = some (CtxVal.s ("%" ++ h ++ "%")) := by
  constructor
  · intro hh
    have hg : generate_sql now q
        = generate_sql_core (detect_intent q) none (extract_time_range now q) q := by
      unfold generate_sql
      rw [hh]
    rw [hg]
    exact gsql_none _ _ _
  · intro h hh
    have hg : generate_sql now q
        = generate_sql_core (detect_intent q) (some h) (extract_time_range now q) q := by
      unfold generate_sql
      rw [hh]
    rw [hg]
    exact gsql_some _ _ _ _

/-- Claim C7 witness:  Scenario 2's `"status dos hosts"` yields the bare
HostStatus base template with no binding; `"status do host web01"` yields the
clause and the `%web01%` binding. -/
theorem claim_C7_host_filter_witness :
    (extract_host "status dos hosts" = none
      ∧ detect_intent "status dos hosts" = QueryIntent.host_status
      ∧ (generate_sql 1700000000 "status dos hosts").1
        = baseSqlText (detect_intent "status dos hosts")
      ∧ containsSub hostClause.data (generate_sql 1700000000 "status dos hosts").1.data
        = false)
      ∧ (extract_host "status do host web01" = some "web01"
          ∧ containsSub hostClause.data
              (generate_sql 1700000000 "status do host web01").1.data = true
          ∧ lookupCtx "host_pattern" (generate_sql 1700000000 "status do host web01").2
            = some (CtxVal.s ("%" ++ "web01" ++ "%"))) :=
  ⟨⟨by decide, by decide,
    ((claim_C7_host_filter 1700000000 "status dos hosts").1 (by decide)).1,
    ((claim_C7_host_filter 1700000000 "status dos hosts").1 (by decide)).2.2⟩,
   ⟨by decide,
    ((claim_C7_host_filter 1700000000 "status do host web01").2 "web01" (by decide)).1,
    ((claim_C7_host_filter 1700000000 "status do host web01").2 "web01" (by decide)).2⟩⟩

lemma containsSub_self (p : List Char) : containsSub p p = true := by
  have h := containsSub_append_self p []
  simpa using h

/-- The narrative always contains the branch's message: the environment
footer is only ever appended after it. -/
lemma containsSub_envSuffix (env t : String) :
    containsSub t.data (envSuffix env t).data = true := by
  unfold envSuffix
  by_cases h : env ≠ "production"
  · rw [if_pos h, String.data_append]
    exact containsSub_append_self _ _
  · rw [if_neg h]
    exact containsSub_self _

/-- A Zabbix collaborator that answers nothing (used for witnesses). -/
def zbEmpty : ZabbixEnv := ⟨fun _ => none, fun _ _ _ => none⟩

/-- Claim C6:  Whenever the intent is HostMaintenance and no host was
extracted, `process_query` short-circuits: it returns (never raises) a result
with no SQL, no charts, no data, whose narrative asks the caller to specify a
host, and it never consults the Zabbix collaborator. -/
theorem claim_C6_missing_host (q : String) (cid : Option String) (now : Int)
    (environment : String) (zb : ZabbixEnv) (rng : Nat → Int)
    (hint : detect_intent q = QueryIntent.host_maintenance)
    (hhost : extract_host q = none) :
    ∃ r, process_query q cid now environment zb rng = Except.ok r
      ∧ r.sql = none ∧ r.charts = none ∧ r.data = PyVal.dict []
      ∧ containsSub
          "Por favor, especifique qual host deseja colocar em manutenção.".data
          r.response.data = true
      ∧ ∀ zb', process_query q cid now environment zb' rng
          = process_query q cid now environment zb rng := by
  have hg : ∀ zbx : ZabbixEnv, process_query q cid now environment zbx rng
      = Except.ok ⟨envSuffix environment
            "Por favor, especifique qual host deseja colocar em manutenção.",
          PyVal.dict [], none, none, convIdOf cid now⟩ := by
    intro zbx
    unfold process_query
    rw [hint, hhost]
    rfl
  refine ⟨_, hg zb, rfl, rfl, rfl, containsSub_envSuffix _ _, ?_⟩
  intro zb'
  rw [hg zb', hg zb]

/-- Claim C6 witness at the host-less maintenance query
`"colocar em manutenção"`. -/
theorem claim_C6_missing_host_witness :
    ∃ r, process_query "colocar em manutenção" none 1700000000 "production" zbEmpty
          (fun _ => 0) = Except.ok r
      ∧ r.sql = none ∧ r.charts = none ∧ r.data = PyVal.dict []
      ∧ containsSub
          "Por favor, especifique qual host deseja colocar em manutenção.".data
          r.response.data = true
      ∧ ∀ zb', process_query "colocar em manutenção" none 1700000000 "production" zb'
            (fun _ => 0)
          = process_query "colocar em manutenção" none 1700000000 "production" zbEmpty
            (fun _ => 0) :=
  claim_C6_missing_host "colocar em manutenção" none 1700000000 "production" zbEmpty
    (fun _ => 0) (by decide) (by decide)

/-- Claim C8:  For queries classified GeneralQuery — or DiskUsage, the one
intent with no synthesis template in the orchestrator — the API-call
synthesizer yields no method, and `process_query` returns (never raises) a
result with no SQL and no charts whose narrative is the fallback
clarification text. -/
theorem claim_C8_unsupported (q : String) (cid : Option String) (now : Int)
    (environment : String) (zb : ZabbixEnv) (rng : Nat → Int)
    (h : detect_intent q = QueryIntent.general_query
        ∨ detect_intent q = QueryIntent.disk_usage) :
    (generate_api_call now q).1 = none
      ∧ ∃ r, process_query q cid now environment zb rng = Except.ok r
          ∧ r.sql = none ∧ r.charts = none ∧ r.data = PyVal.dict []
          ∧ containsSub
              "Não consegui entender sua consulta. Pode reformular de outra forma?".data
              r.response.data = true := by
  rcases h with h | h
  · have hnone : (generate_api_call now q).1 = none := by
      unfold generate_api_call
      rw [h]
      rfl
    have hp : process_query q cid now environment zb rng
        = Except.ok ⟨envSuffix environment
              "Não consegui entender sua consulta. Pode reformular de outra forma?",
            PyVal.dict [], none, none, convIdOf cid now⟩ := by
      unfold process_query
      rw [h]
      unfold process_query_core
      rw [if_neg (by decide), if_neg (by decide), if_neg (by decide)]
      simp only [hnone]
    exact ⟨hnone, _, hp, rfl, rfl, rfl, containsSub_envSuffix _ _⟩
  · have hnone : (generate_api_call now q).1 = none := by
      unfold generate_api_call
      rw [h]
      rfl
    have hp : process_query q cid now environment zb rng
        = Except.ok ⟨envSuffix environment
              "Não consegui entender sua consulta. Pode reformular de outra forma?",
            PyVal.dict [], none, none, convIdOf cid now⟩ := by
      unfold process_query
      rw [h]
      unfold process_query_core
      rw [if_neg (by decide), if_neg (by decide), if_neg (by decide)]
      simp only [hnone]
    exact ⟨hnone, _, hp, rfl, rfl, rfl, containsSub_envSuffix _ _⟩

/-- Claim C8 witness at the unmatched query `"olá"`. -/
theorem claim_C8_unsupported_witness :
    detect_intent "olá" = QueryIntent.general_query
      ∧ ((generate_api_call 1700000000 "olá").1 = none
          ∧ ∃ r, process_query "olá" none 1700000000 "production" zbEmpty (fun _ => 0)
                = Except.ok r
              ∧ r.sql = none ∧ r.charts = none ∧ r.data = PyVal.dict []
              ∧ containsSub
                  "Não consegui entender sua consulta. Pode reformular de outra forma?".data
                  r.response.data = true) :=
  ⟨by decide,
   claim_C8_unsupported "olá" none 1700000000 "production" zbEmpty (fun _ => 0)
     (Or.inl (by decide))⟩

/-- Claim C9 amended:  `process_query` is a pure function of its inputs, and
for every query not classified GraphRequest its result does not depend on the
pseudo-random stream at all — so two calls with the same text and the same
injected "now" are byte-identical.  (GraphRequest queries are the exception:
their chart datasets take fresh values from the global PRNG, whose state
advances between calls — see the counterexample.) -/
theorem claim_C9_deterministic (q : String) (cid : Option String) (now : Int)
    (environment : String) (zb : ZabbixEnv) (r1 r2 : Nat → Int)
    (h : detect_intent q ≠ QueryIntent.graph_request) :
    process_query q cid now environment zb r1 = process_query q cid now environment zb r2 := by
  unfold process_query process_query_core
  simp only [if_neg h]

/-- Claim C9 witness at scenario 2's query with two distinct streams. -/
theorem claim_C9_deterministic_witness :
    detect_intent "status dos hosts" ≠ QueryIntent.graph_request
      ∧ process_query "status dos hosts" none 1700000000 "production" zbEmpty (fun _ => 10)
        = process_query "status dos hosts" none 1700000000 "production" zbEmpty (fun _ => 11) :=
  ⟨by decide,
   claim_C9_deterministic "status dos hosts" none 1700000000 "production" zbEmpty
     (fun _ => 10) (fun _ => 11) (by decide)⟩

/-- Extracts the integer total of a response's chart payload (−1: no charts,
−2: error); separates concrete responses without decidable equality on the
nested `PyVal`. -/
def chartProbe (r : Except String ZabbiaResponse) : Int :=
  match r with
  | Except.ok z =>
    match z.charts with
    | some l => pyListSum l
    | none => -1
  | Except.error _ => -2

/-- Claim C9 counterexample:  For the GraphRequest query
`"gerar gráfico de cpu"`, the response embeds twelve freshly drawn
pseudo-random values, so two calls with the same text and the same injected
"now" — but the advanced global PRNG state — differ. -/
theorem claim_C9_counterexample :
    process_query "gerar gráfico de cpu" none 1700000000 "production" zbEmpty (fun _ => 10)
      ≠ process_query "gerar gráfico de cpu" none 1700000000 "production" zbEmpty
          (fun _ => 11) := by
  intro h
  exact absurd (congrArg chartProbe h) (by decide)
